import Mathlib

/-!
Verification of the multi-agent self-corrective review workflow of the
broadcast-compliance repository (src/chains/review_chain.py,
src/chains/case_agent.py, src/tools/case_tools.py, src/tools/policy_tools.py).

Modelling conventions (shallow embedding):
- Python dicts with a known key set become structures whose fields are
  `Option`-valued when the source accesses them through `.get` (a `none`
  field stands for an absent key).
- Every call to the external completion service or the evidence store is a
  suspension point that may raise; it is embedded as an oracle argument of
  type `Except String α`, indexed by the loop round where the source makes
  one call per round.  `Except.error e` covers a raised exception anywhere
  inside the corresponding `try` block of the source, in particular a reply
  that the JSON output parser cannot parse.  Prompt strings that are merely
  fed to the oracle are abstracted into the oracle argument, except where a
  claim depends on what is submitted (the policy grading call, whose
  formatted document list is modelled explicitly).
- Wall-clock fields of the trace log (`elapsed`) are not representable in a
  pure embedding and are dropped; every other payload of a trace record is
  kept.
- Python `while True` loops whose progress variable is a retry counter are
  embedded with an explicit fuel that dominates the counter; adequacy
  (the fuel-exhaustion branch is unreachable for the fuel the entry points
  supply) is proved where a claim depends on it.
- `relevance_score` values are `Rat` in place of Python floats; no claim
  depends on score arithmetic, scores are only copied around.
-/

/-- Provenance metadata of a retrieved chunk (the `metadata` dict attached to
every evidence item).  All fields are read through `.get`, hence `Option`. -/
structure Metadata where
  source_file : Option String := none
  doc_filename : Option String := none
  doc_type : Option String := none
  case_number : Option String := none
  case_date : Option String := none
  violation_type : Option String := none
  article_title : Option String := none
  article_number : Option String := none
  section_ : Option String := none
  section_title : Option String := none
deriving DecidableEq, Repr

/-- A retrieved evidence chunk as produced by `_parse_query_result` in
src/tools/case_tools.py and src/tools/policy_tools.py:
`{content, metadata, chroma_id, relevance_score}`. -/
structure Chunk where
  content : Option String := none
  metadata : Metadata := {}
  chroma_id : Option String := none
  relevance_score : Rat := 0
deriving DecidableEq, Repr

/-- One entry of a reference list.  `_context_to_refs` always fills every
key; for references supplied by the model an absent or `None` `chroma_id`
is represented by `""` (both are falsy in the source's truthiness tests,
and only truthiness and string equality are applied to them). -/
structure Ref where
  chroma_id : String := ""
  doc_filename : String := ""
  doc_type : String := ""
  case_number : String := ""
  case_date : String := ""
  article_number : String := ""
  section_title : String := ""
  relevance_score : Rat := 0
  content : String := ""
deriving DecidableEq, Repr

/-- Python `a or b` for an optionally-absent string value: an absent key or
an empty string falls through to the alternative. -/
def orStr (a : Option String) (b : String) : String :=
  match a with
  | none => b
  | some s => if s = "" then b else s

/-- One element of the `grades` array of a parsed relevance-grading reply
(`{"doc_index": …, "relevance": …}`); fields are read through `.get`. -/
structure GradeEntry where
  doc_index : Option Int := none
  relevance : Option String := none
deriving DecidableEq, Repr

/-- `{g.get("doc_index", 0) - 1 for g in grades if g.get("relevance") == "relevant"}`
(review_chain.py lines 374-378 and case_agent.py lines 191-195). -/
def relevantIndices (grades : List GradeEntry) : List Int :=
  (grades.filter (fun g => g.relevance = some "relevant")).map
    (fun g => g.doc_index.getD 0 - 1)

/-- `[c for i, c in enumerate(chunks) if i in relevant_indices]`. -/
def gradeFilter (grades : List GradeEntry) (chunks : List Chunk) : List Chunk :=
  (chunks.enum.filter (fun p => (p.1 : Int) ∈ relevantIndices grades)).map Prod.snd

/-- Trace-log records (`tool_logs` entries), minus the wall-clock `elapsed`
field which a pure embedding cannot represent. -/
inductive LogEntry where
  | orchestrator (risk_types : List String)
  | case_retrieve (query : String) (total : Nat) (retry : Nat)
  | case_grade (total relevant : Nat)
  | case_rewrite (old_query new_query : String)
  | policy_retrieve (query : String) (total : Nat) (retry : Nat)
  | policy_grade (total relevant : Nat)
  | policy_rewrite (old_query new_query : String)
  | synthesizer (judgment : String)
  | grade_answer (grade : String)
  | error (message : String)
deriving DecidableEq, Repr

/-- `CaseAgent._grade` (case_agent.py lines 155-207): one batched relevance
call; on success keep the chunks whose 0-based position is in the graded
relevant set, on any exception (raise or unparseable reply) keep all chunks.
Returns the kept chunks and the `case_grade` trace record. -/
def caseAgentGrade (oracle : Except String (List GradeEntry)) (chunks : List Chunk) :
    List Chunk × LogEntry :=
  let relevant :=
    match oracle with
    | .ok grades => gradeFilter grades chunks
    | .error _ => chunks
  (relevant, .case_grade chunks.length relevant.length)

/-- `CaseAgent._rewrite` (case_agent.py lines 209-241): one rewrite call;
`result.get("case_query") or old_query` on success, `old_query` on any
exception.  Returns the new query and the `case_rewrite` trace record. -/
def caseAgentRewrite (oracle : Except String (Option String)) (old_query : String) :
    String × LogEntry :=
  let new_query :=
    match oracle with
    | .ok (some s) => if s = "" then old_query else s
    | .ok none => old_query
    | .error _ => old_query
  (new_query, .case_rewrite old_query new_query)

/-- Result of `CaseAgent.run`: `{"case_chunks": …, "tool_logs": …}`. -/
structure CaseRunResult where
  case_chunks : List Chunk
  tool_logs : List LogEntry
deriving DecidableEq, Repr

/-- Body of the `while True` loop of `CaseAgent.run` (case_agent.py lines
111-151), with explicit fuel.  `sc`, `gr`, `rw` are the retrieval, grading
and rewrite oracles, indexed by the retry counter (each loop round makes at
most one call to each and every non-final round increments `retry`). -/
def caseAgentRunAux (sc : Nat → String → Except String (List Chunk))
    (gr : Nat → Except String (List GradeEntry))
    (rw : Nat → Except String (Option String))
    (maxRetries : Nat) :
    Nat → Nat → String → List LogEntry → CaseRunResult
  | 0, _, _, logs => ⟨[], logs⟩
  | fuel + 1, retry, q, logs =>
    let chunks := match sc retry q with | .ok l => l | .error _ => []
    let logs := logs ++ [LogEntry.case_retrieve q chunks.length retry]
    if chunks.isEmpty then
      if maxRetries ≤ retry then ⟨[], logs⟩
      else
        let r := caseAgentRewrite (rw retry) q
        caseAgentRunAux sc gr rw maxRetries fuel (retry + 1) r.1 (logs ++ [r.2])
    else
      let g := caseAgentGrade (gr retry) chunks
      let logs := logs ++ [g.2]
      if ¬ g.1.isEmpty ∨ maxRetries ≤ retry then ⟨g.1, logs⟩
      else
        let r := caseAgentRewrite (rw retry) q
        caseAgentRunAux sc gr rw maxRetries fuel (retry + 1) r.1 (logs ++ [r.2])

/-- `CaseAgent.run(query, item_text, risk_type, max_retries)` (case_agent.py
lines 95-151).  `item_text` and `risk_type` only enter the prompts, which
the oracles absorb.  The loop increments `retry` at most `maxRetries` times,
so fuel `maxRetries + 1` is adequate (proved below). -/
def caseAgentRun (sc : Nat → String → Except String (List Chunk))
    (gr : Nat → Except String (List GradeEntry))
    (rw : Nat → Except String (Option String))
    (query : String) (maxRetries : Nat) : CaseRunResult :=
  caseAgentRunAux sc gr rw maxRetries (maxRetries + 1) 0 query []

/-- Reply of `search_policy.invoke` (policy_tools.py): three chunk lists read
through `.get(..., [])`. -/
structure PolicyRaw where
  law_chunks : List Chunk := []
  regulation_chunks : List Chunk := []
  guideline_chunks : List Chunk := []
deriving DecidableEq, Repr

/-- One formatted document of the policy grading prompt (review_chain.py
lines 358-366): built from the first 15 candidates only. -/
def formatPolicyDoc (i : Nat) (c : Chunk) : String :=
  let source := c.metadata.source_file.getD "N/A"
  let doc_type := c.metadata.doc_type.getD "N/A"
  let content := (c.content.getD "").take 400
  "[문서 " ++ toString i ++ "] 유형: " ++ doc_type ++ " | 출처: " ++ source
    ++ "\n내용: " ++ content

/-- `docs_text_parts` of the policy grading call: one formatted block per
element of `all_policy[:15]`, 1-based indices (review_chain.py line 359). -/
def policyDocsText (all_policy : List Chunk) : List String :=
  (all_policy.take 15).enum.map (fun p => formatPolicyDoc (p.1 + 1) p.2)

/-- The policy grading step (review_chain.py lines 368-383): on success the
graded-relevant subset of the first 15 candidates followed by every
candidate past the 15th ungraded; on any exception the whole candidate
set. -/
def policyGradeStep (oracle : Except String (List GradeEntry)) (all_policy : List Chunk) :
    List Chunk :=
  match oracle with
  | .ok grades => gradeFilter grades (all_policy.take 15) ++ all_policy.drop 15
  | .error _ => all_policy

/-- `_rewrite_policy` (review_chain.py lines 420-445):
`result.get("policy_query") or old_query` on success, `old_query` on any
exception; returns the new query and the `policy_rewrite` trace record. -/
def policyRewriteStep (oracle : Except String (Option String)) (old_query : String) :
    String × LogEntry :=
  let new_query :=
    match oracle with
    | .ok (some s) => if s = "" then old_query else s
    | .ok none => old_query
    | .error _ => old_query
  (new_query, .policy_rewrite old_query new_query)

/-- Reclassification of the accepted policy items into the three buckets by
`doc_type` (review_chain.py lines 393-401). -/
def classifyPolicyAux :
    List Chunk → List Chunk → List Chunk → List Chunk →
    List Chunk × List Chunk × List Chunk
  | [], law, reg, guide => (law, reg, guide)
  | c :: rest, law, reg, guide =>
    let dt := c.metadata.doc_type.getD ""
    if dt = "법령" ∨ dt = "law" then classifyPolicyAux rest (law ++ [c]) reg guide
    else if dt = "지침" ∨ dt = "guideline" then
      classifyPolicyAux rest law reg (guide ++ [c])
    else classifyPolicyAux rest law (reg ++ [c]) guide

/-- Output of `policy_agent_node`: the three policy buckets plus the trace
log — the only keys the node writes. -/
structure PolicyNodeOut where
  law_chunks : List Chunk
  regulation_chunks : List Chunk
  guideline_chunks : List Chunk
  tool_logs : List LogEntry
deriving DecidableEq, Repr

/-- Body of the `while True` loop of `policy_agent_node` (review_chain.py
lines 328-406), with explicit fuel.  `ps`, `pg`, `prw` are the retrieval,
grading and rewrite oracles indexed by the retry counter; the grading
oracle additionally receives the formatted document list actually submitted
(the first 15 candidates). -/
def policyAgentRunAux (ps : Nat → String → Except String PolicyRaw)
    (pg : Nat → List String → Except String (List GradeEntry))
    (prw : Nat → Except String (Option String))
    (maxRetries : Nat) :
    Nat → Nat → String → List LogEntry → PolicyNodeOut
  | 0, _, _, logs => ⟨[], [], [], logs⟩
  | fuel + 1, retry, q, logs =>
    let all_policy :=
      match ps retry q with
      | .ok raw => raw.law_chunks ++ raw.regulation_chunks ++ raw.guideline_chunks
      | .error _ => []
    let logs := logs ++ [LogEntry.policy_retrieve q all_policy.length retry]
    if all_policy.isEmpty then
      if maxRetries ≤ retry then ⟨[], [], [], logs⟩
      else
        let r := policyRewriteStep (prw retry) q
        policyAgentRunAux ps pg prw maxRetries fuel (retry + 1) r.1 (logs ++ [r.2])
    else
      let relevant := policyGradeStep (pg retry (policyDocsText all_policy)) all_policy
      let logs := logs ++ [LogEntry.policy_grade all_policy.length relevant.length]
      if ¬ relevant.isEmpty ∨ maxRetries ≤ retry then
        let b := classifyPolicyAux relevant [] [] []
        ⟨b.1, b.2.1, b.2.2, logs⟩
      else
        let r := policyRewriteStep (prw retry) q
        policyAgentRunAux ps pg prw maxRetries fuel (retry + 1) r.1 (logs ++ [r.2])

/-- The policy agent loop as entered by `policy_agent_node`: retry counter
starts at 0; fuel `maxRetries + 1` is adequate since every non-final round
increments the counter and the loop stops once it reaches `maxRetries`. -/
def policyAgentRun (ps : Nat → String → Except String PolicyRaw)
    (pg : Nat → List String → Except String (List GradeEntry))
    (prw : Nat → Except String (Option String))
    (query : String) (maxRetries : Nat) : PolicyNodeOut :=
  policyAgentRunAux ps pg prw maxRetries (maxRetries + 1) 0 query []

/-- A `search_queries` entry of the plan: the source annotates it
`str | list[str] | None` and additionally defends against non-string list
heads (`_query_to_str`, review_chain.py lines 215-222). -/
inductive QueryField where
  | str : String → QueryField
  | list : List QueryField → QueryField
  | other : QueryField

/-- `_query_to_str(q, fallback)` (review_chain.py lines 215-222). -/
def queryToStr (q : Option QueryField) (fallback : String) : String :=
  match q with
  | none => fallback
  | some (QueryField.str s) => if s.trim = "" then fallback else s.trim
  | some (QueryField.list []) => fallback
  | some (QueryField.list (QueryField.str s :: _)) =>
      if s.trim = "" then fallback else s.trim
  | some (QueryField.list (_ :: _)) => fallback
  | some QueryField.other => fallback

/-- The orchestrator's plan dict.  `search_queries` is flattened into its two
read keys; an absent inner dict is the state where both are `none`.  The
unread `tools_to_use` key is omitted.  A `Plan` value stands for a non-empty
dict (the empty dict and non-dict replies are handled before a `Plan` is
formed, mirroring `if not plan` in `orchestrator_node`). -/
structure Plan where
  risk_types : Option (List String) := none
  cases_query : Option QueryField := none
  policy_query : Option QueryField := none

/-- The structured object requested from the synthesis completion call, as
far as the source reads it after `default_result.update(result)`: each key
may be absent (`none`), in which case the default survives. -/
structure SynthDict where
  judgment : Option String := none
  reason : Option String := none
  risk_type : Option String := none
  related_articles : Option (List String) := none
  suggested_fix : Option String := none
  references : Option (List Ref) := none
deriving DecidableEq, Repr

/-- A parsed synthesis reply: either a dict (merged into the defaults) or a
parse-valid non-dict value (the `else` branch of `isinstance(result, dict)`). -/
inductive SynthOut where
  | nonDict
  | dict (d : SynthDict)
deriving DecidableEq, Repr

/-- The `result` dict of `synthesizer_node` after merging with
`default_result`: every key is present. -/
structure SynthResult where
  judgment : String
  reason : String
  risk_type : String
  related_articles : List String
  suggested_fix : String
  references : List Ref
deriving DecidableEq, Repr

/-- The `ReviewState` TypedDict of review_chain.py.  `result` starts as the
empty dict, embedded as `none`. -/
structure ReviewState where
  item_text : String
  category : String
  broadcast_type : String
  plan : Plan
  case_context : List Chunk
  law_chunks : List Chunk
  regulation_chunks : List Chunk
  guideline_chunks : List Chunk
  result : Option SynthResult
  answer_grade : String
  retry_count : Nat
  max_retries : Nat
  tool_logs : List LogEntry

/-- One reference built from a retrieved chunk (`_context_to_refs`,
review_chain.py lines 196-211). -/
def chunkToRef (default_label : String) (c : Chunk) : Ref :=
  { chroma_id := c.chroma_id.getD ""
  , doc_filename := orStr c.metadata.source_file (orStr c.metadata.doc_filename "")
  , doc_type := c.metadata.doc_type.getD default_label
  , case_number := c.metadata.case_number.getD ""
  , case_date := c.metadata.case_date.getD ""
  , article_number := orStr c.metadata.article_title (orStr c.metadata.article_number "")
  , section_title := orStr c.metadata.section_ (orStr c.metadata.section_title "")
  , relevance_score := c.relevance_score
  , content := (c.content.getD "").take 600 }

/-- `_context_to_refs(case_context, law_chunks, regulation_chunks,
guideline_chunks)` (review_chain.py lines 182-212). -/
def contextToRefs (case_context law_chunks regulation_chunks guideline_chunks : List Chunk) :
    List Ref :=
  case_context.map (chunkToRef "사례")
    ++ law_chunks.map (chunkToRef "법령")
    ++ regulation_chunks.map (chunkToRef "규정")
    ++ guideline_chunks.map (chunkToRef "지침")

/-- The reference-reconciliation loop of `synthesizer_node` (review_chain.py
lines 497-501): walk the retrieved references, append each one whose
`chroma_id` is not in the accumulated id set, and record its id. -/
def reconcileRefsGo (acc : List Ref) (ids : List String) : List Ref → List Ref
  | [] => acc
  | ref :: rest =>
    if ref.chroma_id ∈ ids then reconcileRefsGo acc ids rest
    else reconcileRefsGo (acc ++ [ref]) (ids ++ [ref.chroma_id]) rest

/-- Reference reconciliation: the model-supplied list followed by the
retrieved references appended by the loop.  The initial id set
`existing_ids` holds the truthy (non-empty) ids of the model-supplied
list. -/
def reconcileRefs (modelRefs retrieved : List Ref) : List Ref :=
  reconcileRefsGo modelRefs
    ((modelRefs.filter (fun r => ¬ r.chroma_id = "")).map Ref.chroma_id) retrieved

/-- `synthesizer_node` (review_chain.py lines 450-507) minus the state
plumbing: consumes the synthesis oracle reply, merges it into
`default_result`, falls back on exception with an explanatory reason, and
reconciles the reference list against the retrieved evidence.  Returns the
final `result` dict and the `synthesizer` trace record. -/
def synthesizerNode (oracle : Except String SynthOut) (riskTypes : Option (List String))
    (case_context law_chunks regulation_chunks guideline_chunks : List Chunk) :
    SynthResult × LogEntry :=
  let risk_types := riskTypes.getD ["방송심의일반"]
  let defaultRes : SynthResult :=
    { judgment := "주의"
    , reason := ""
    , risk_type := risk_types.headD ""
    , related_articles := []
    , suggested_fix := ""
    , references := [] }
  let res : SynthResult :=
    match oracle with
    | .ok (.dict d) =>
      { judgment := d.judgment.getD defaultRes.judgment
      , reason := d.reason.getD defaultRes.reason
      , risk_type := d.risk_type.getD defaultRes.risk_type
      , related_articles := d.related_articles.getD defaultRes.related_articles
      , suggested_fix := d.suggested_fix.getD defaultRes.suggested_fix
      , references := d.references.getD defaultRes.references }
    | .ok .nonDict => defaultRes
    | .error e => { defaultRes with reason := "AI 생성 중 오류 발생: " ++ e }
  let retrieved := contextToRefs case_context law_chunks regulation_chunks guideline_chunks
  let final := { res with references := reconcileRefs res.references retrieved }
  (final, .synthesizer final.judgment)

/-- A parsed answer-grading reply: a dict with an optional `grade` key, or a
parse-valid non-dict value. -/
inductive GradeAnswerOut where
  | nonDict
  | dict (grade : Option String)
deriving DecidableEq, Repr

/-- The answer grade extracted by `grade_answer_node` (review_chain.py lines
532-541): `grade.get("grade", "pass")` for a dict reply, `"pass"` for a
non-dict reply and on any exception. -/
def gradeAnswerValue (oracle : Except String GradeAnswerOut) : String :=
  match oracle with
  | .ok (.dict g) => g.getD "pass"
  | .ok .nonDict => "pass"
  | .error _ => "pass"

/-- `route_after_grade_answer` (review_chain.py lines 555-566). -/
def routeAfterGradeAnswer (answer_grade : String) (retry_count max_retries : Nat) :
    String :=
  if answer_grade = "pass" then "end"
  else if max_retries ≤ retry_count then "end"
  else "synthesizer"

/-- Output of `orchestrator_node` beyond the constant resets it performs
(empty evidence fields, `retry_count = 0`, `max_retries = 2`): the plan and
the trace record. -/
structure OrchNodeOut where
  plan : Plan
  tool_logs : List LogEntry

/-- The fixed fallback plan of `orchestrator_node` (review_chain.py lines
249-257): generic risk category, seed query = the raw phrase for both
agents.  The unread `tools_to_use` key is omitted. -/
def defaultPlan (item_text : String) : Plan :=
  { risk_types := some ["방송심의일반"]
  , cases_query := some (QueryField.str item_text)
  , policy_query := some (QueryField.str item_text) }

/-- `orchestrator_node` (review_chain.py lines 227-269).  The oracle yields
`some p` for a reply parsed to a non-empty dict, `none` for an empty-dict
or non-dict reply (`if not isinstance(plan, dict): plan = {}` followed by
`if not plan:`); on those and on exception the fallback plan is used. -/
def orchestratorNode (oracle : Except String (Option Plan)) (item_text : String) :
    OrchNodeOut :=
  let plan :=
    match oracle with
    | .ok (some p) => p
    | .ok none => defaultPlan item_text
    | .error _ => defaultPlan item_text
  { plan := plan, tool_logs := [LogEntry.orchestrator (plan.risk_types.getD [])] }

/-- Output of `case_agent_node`: the case evidence plus the trace log — the
only keys the node writes. -/
structure CaseNodeOut where
  case_context : List Chunk
  tool_logs : List LogEntry
deriving DecidableEq, Repr

/-- `case_agent_node` (review_chain.py lines 274-295): reads only
`item_text` and `plan` from the state, and runs the Case Agent with its
default retry cap of 3 — the workflow's `max_retries` field is not passed.
(`risk_types` joins into the prompt only, which the oracles absorb.) -/
def caseAgentNode (sc : Nat → String → Except String (List Chunk))
    (gr : Nat → Except String (List GradeEntry))
    (rw : Nat → Except String (Option String))
    (st : ReviewState) : CaseNodeOut :=
  let case_query := queryToStr st.plan.cases_query st.item_text
  let r := caseAgentRun sc gr rw case_query 3
  { case_context := r.case_chunks, tool_logs := r.tool_logs }

/-- `policy_agent_node` (review_chain.py lines 300-417): reads only
`item_text`, `plan` and `max_retries` from the state. -/
def policyAgentNode (ps : Nat → String → Except String PolicyRaw)
    (pg : Nat → List String → Except String (List GradeEntry))
    (prw : Nat → Except String (Option String))
    (st : ReviewState) : PolicyNodeOut :=
  let policy_query := queryToStr st.plan.policy_query st.item_text
  policyAgentRun ps pg prw policy_query st.max_retries

/-- LangGraph merge of the orchestrator's partial state update: it writes
`plan`, resets both agents' evidence fields, sets `retry_count = 0` and
`max_retries = 2`, and appends to `tool_logs` (review_chain.py lines
260-269). -/
def applyOrch (st : ReviewState) (o : OrchNodeOut) : ReviewState :=
  { st with
    plan := o.plan
    case_context := []
    law_chunks := []
    regulation_chunks := []
    guideline_chunks := []
    retry_count := 0
    max_retries := 2
    tool_logs := st.tool_logs ++ o.tool_logs }

/-- LangGraph merge of `case_agent_node`'s partial update: only
`case_context` is overwritten and `tool_logs` appended. -/
def applyCase (st : ReviewState) (o : CaseNodeOut) : ReviewState :=
  { st with
    case_context := o.case_context
    tool_logs := st.tool_logs ++ o.tool_logs }

/-- LangGraph merge of `policy_agent_node`'s partial update: only the three
policy buckets are overwritten and `tool_logs` appended. -/
def applyPolicy (st : ReviewState) (o : PolicyNodeOut) : ReviewState :=
  { st with
    law_chunks := o.law_chunks
    regulation_chunks := o.regulation_chunks
    guideline_chunks := o.guideline_chunks
    tool_logs := st.tool_logs ++ o.tool_logs }

/-- The synthesizer ↔ answer-grader feedback loop of the compiled graph
(`synthesizer → grade_answer → route_after_grade_answer → {end,
synthesizer}`), with explicit fuel.  Oracles are indexed by the state's
`retry_count` at the start of the round (0 for the first round, then 1, 2,
…, matching one call per round).  Returns the final state and the number of
Synthesizer executions. -/
def synthGradeLoop (so : Nat → Except String SynthOut)
    (go : Nat → Except String GradeAnswerOut) :
    Nat → ReviewState → ReviewState × Nat
  | 0, st => (st, 0)
  | fuel + 1, st =>
    let s := synthesizerNode (so st.retry_count) st.plan.risk_types
      st.case_context st.law_chunks st.regulation_chunks st.guideline_chunks
    let st1 := { st with result := some s.1, tool_logs := st.tool_logs ++ [s.2] }
    let g := gradeAnswerValue (go st.retry_count)
    let st2 := { st1 with
      answer_grade := g
      retry_count := st1.retry_count + 1
      tool_logs := st1.tool_logs ++ [LogEntry.grade_answer g] }
    if routeAfterGradeAnswer st2.answer_grade st2.retry_count st2.max_retries
        = "synthesizer" then
      let r := synthGradeLoop so go fuel st2
      (r.1, r.2 + 1)
    else (st2, 1)

/-- The oracle bundle of one workflow execution: one entry per external
call site, loop-indexed where the site sits in a loop.  `graphFailure`
models an unexpected exception escaping `graph.invoke` (the top-level
`except` of `ReviewChain.run`). -/
structure RunOracles where
  planner : Except String (Option Plan)
  caseSearch : Nat → String → Except String (List Chunk)
  caseGrade : Nat → Except String (List GradeEntry)
  caseRewrite : Nat → Except String (Option String)
  policySearch : Nat → String → Except String PolicyRaw
  policyGrade : Nat → List String → Except String (List GradeEntry)
  policyRewrite : Nat → Except String (Option String)
  synth : Nat → Except String SynthOut
  gradeAnswer : Nat → Except String GradeAnswerOut
  graphFailure : Option String

/-- The value returned by `ReviewChain.run`: the final `result` dict plus
`tool_logs`. -/
structure RunOutput where
  judgment : String
  reason : String
  risk_type : String
  related_articles : List String
  suggested_fix : String
  references : List Ref
  tool_logs : List LogEntry
deriving DecidableEq, Repr

/-- The initial state built by `ReviewChain.run` (review_chain.py lines
627-641). -/
def initialState (item_text category broadcast_type : String) : ReviewState :=
  { item_text := item_text
  , category := if category = "" then "미지정" else category
  , broadcast_type := if broadcast_type = "" then "미지정" else broadcast_type
  , plan := {}
  , case_context := []
  , law_chunks := []
  , regulation_chunks := []
  , guideline_chunks := []
  , result := none
  , answer_grade := ""
  , retry_count := 0
  , max_retries := 2
  , tool_logs := [] }

/-- Graph execution as wired in `_build_graph` (review_chain.py lines
571-596): orchestrator, fan-out to the two agents (their updates touch
disjoint fields; the trace log is merged by `operator.add` — the model
fixes the case-then-policy append order, which no claim depends on),
fan-in to the synthesizer ↔ grader loop. -/
def graphInvoke (o : RunOracles) (st0 : ReviewState) : ReviewState :=
  let st1 := applyOrch st0 (orchestratorNode o.planner st0.item_text)
  let st2 := applyCase st1 (caseAgentNode o.caseSearch o.caseGrade o.caseRewrite st1)
  let st3 := applyPolicy st2 (policyAgentNode o.policySearch o.policyGrade o.policyRewrite st2)
  (synthGradeLoop o.synth o.gradeAnswer (st3.max_retries + 1) st3).1

/-- `ReviewChain.run` (review_chain.py lines 621-671): build the initial
state, invoke the graph, project `result` and `tool_logs`; on a graph-level
exception return the fixed caution object.  A `none` final `result` (never
reached: the loop always runs the synthesizer at least once) projects to an
unset judgment `""`. -/
def reviewChainRun (o : RunOracles) (item_text category broadcast_type : String) :
    RunOutput :=
  match o.graphFailure with
  | some e =>
    { judgment := "주의"
    , reason := "AI 처리 중 오류 발생: " ++ e
    , risk_type := ""
    , related_articles := []
    , suggested_fix := ""
    , references := []
    , tool_logs := [LogEntry.error e] }
  | none =>
    let final := graphInvoke o (initialState item_text category broadcast_type)
    match final.result with
    | some r =>
      { judgment := r.judgment
      , reason := r.reason
      , risk_type := r.risk_type
      , related_articles := r.related_articles
      , suggested_fix := r.suggested_fix
      , references := r.references
      , tool_logs := final.tool_logs }
    | none =>
      { judgment := ""
      , reason := ""
      , risk_type := ""
      , related_articles := []
      , suggested_fix := ""
      , references := []
      , tool_logs := final.tool_logs }

/-- Configuration of a completion client as assembled by `_get_llm`
(review_chain.py lines 77-84) and by `CaseAgent.__init__` (case_agent.py
lines 86-92): model name, temperature 0, request timeout 90. -/
structure LlmConfig where
  model : String
  temperature : Nat
  request_timeout : Nat
deriving DecidableEq, Repr

/-- `_get_llm(model_name)` (review_chain.py lines 77-84). -/
def getLlm (model_name : String) : LlmConfig :=
  { model := model_name, temperature := 0, request_timeout := 90 }

/-- `_llm = _get_llm()` (review_chain.py line 87): the module-level client,
built once at import time with the default model name; every node of the
module-level `graph` closes over it. -/
def moduleLlm : LlmConfig := getLlm "gpt-4o-mini"

/-- The `ReviewChain` class (review_chain.py lines 604-619): its constructor
only stores `model_name`. -/
structure ReviewChain where
  model_name : String
deriving DecidableEq, Repr

/-- The completion client whose calls `ReviewChain.run` issues: `run`
invokes the module-level `graph` (review_chain.py line 645), whose nodes
use the module-level `_llm`; the stored `model_name` is never threaded into
the graph. -/
def ReviewChain.runLlm (_c : ReviewChain) : LlmConfig := moduleLlm

/-- `get_case_agent(model_name)` (case_agent.py lines 249-253): module-level
singleton keyed on first use.  The state is the cached agent's model name;
returns the model name of the agent served plus the new cache.
`case_agent_node` always calls it with the default argument
`"gpt-4o-mini"`. -/
def getCaseAgent (cache : Option String) (model_name : String) :
    String × Option String :=
  match cache with
  | some m => (m, some m)
  | none => (model_name, some model_name)

/-- Claim C2: if the batched relevance-grading completion call raises or its
reply cannot be parsed (both reach the `except` branch), the grading step of
the Case Agent and of the Policy Agent returns the entire retrieved
candidate set as relevant; no retrieved item is dropped on a grading
error. -/
theorem claim_C2_grading_fail_open (e : String) (chunks all_policy : List Chunk) :
    (caseAgentGrade (Except.error e) chunks).1 = chunks
    ∧ policyGradeStep (Except.error e) all_policy = all_policy :=
  ⟨rfl, rfl⟩

/-- Claim C5: the policy grading call receives only the first 15 candidates
(the formatted document list depends only on `all_policy[:15]` and has at
most 15 entries), and on grading success every candidate beyond the 15th is
included in the accepted set ungraded — no overflow item is discarded. -/
theorem claim_C5_policy_overflow (all_policy : List Chunk) (grades : List GradeEntry) :
    policyDocsText all_policy = policyDocsText (all_policy.take 15)
    ∧ (policyDocsText all_policy).length ≤ 15
    ∧ ∀ c ∈ all_policy.drop 15, c ∈ policyGradeStep (Except.ok grades) all_policy := by
  refine ⟨?_, ?_, ?_⟩
  · simp [policyDocsText, List.take_take]
  · simp only [policyDocsText, List.length_map, List.enum_length, List.length_take]
    omega
  · intro c hc
    simp only [policyGradeStep]
    exact List.mem_append.mpr (Or.inr hc)

/-- Witness for claim C5 at a concrete 16-candidate pool: the 16th candidate
survives grading even when the grader marks nothing relevant. -/
theorem claim_C5_policy_overflow_witness :
    ({} : Chunk) ∈ policyGradeStep (Except.ok []) (List.replicate 16 {}) :=
  (claim_C5_policy_overflow (List.replicate 16 {}) []).2.2 {} (by decide)

/-- Claim C6 (amended): if the synthesis completion call raises, the
Synthesizer produces a terminal answer with judgment `주의` whose reason
embeds the failure text; if the call succeeds but returns a non-object
value, the judgment is likewise `주의` but the reason is the empty string
(it does not reference the failure).  Either way a valid terminal answer is
produced, not a raised error. -/
theorem claim_C6_synth_fallback (e : String) (rts : Option (List String))
    (cc lc rcc gc : List Chunk) :
    (synthesizerNode (Except.error e) rts cc lc rcc gc).1.judgment = "주의"
    ∧ (synthesizerNode (Except.error e) rts cc lc rcc gc).1.reason
        = "AI 생성 중 오류 발생: " ++ e
    ∧ (synthesizerNode (Except.ok SynthOut.nonDict) rts cc lc rcc gc).1.judgment = "주의"
    ∧ (synthesizerNode (Except.ok SynthOut.nonDict) rts cc lc rcc gc).1.reason = "" :=
  ⟨rfl, rfl, rfl, rfl⟩

/-- Counterexample for claim C6 as stated: when the completion call succeeds
with a value that is not an object of the expected shape, the fallback
answer's reason is the empty string, so it does not reference the
failure. -/
theorem claim_C6_counterexample :
    (synthesizerNode (Except.ok SynthOut.nonDict) none [] [] [] []).1.judgment = "주의"
    ∧ (synthesizerNode (Except.ok SynthOut.nonDict) none [] [] [] []).1.reason = "" :=
  ⟨rfl, rfl⟩

/-- Counterexample for claim C9 as stated: constructing `ReviewChain` with
model name `"gpt-4"` still issues its completion calls against the
module-level default client, whose model is `"gpt-4o-mini"`, not
`"gpt-4"`. -/
theorem claim_C9_counterexample :
    (ReviewChain.runLlm { model_name := "gpt-4" }).model ≠ "gpt-4" := by
  decide

/-- Claim C9 (amended): `ReviewChain` stores the constructor's model name,
and `_get_llm` does honour its argument, but `run` executes the module-level
graph whose completion calls are bound to the module-level client built with
the default `"gpt-4o-mini"`; the Case Agent is likewise a module singleton
created with the default model name.  The constructed configuration is
overridden by module-level defaults. -/
theorem claim_C9_module_default (m : String) :
    (ReviewChain.mk m).model_name = m
    ∧ (getLlm m).model = m
    ∧ (ReviewChain.mk m).runLlm = moduleLlm
    ∧ moduleLlm.model = "gpt-4o-mini"
    ∧ (getCaseAgent none "gpt-4o-mini").1 = "gpt-4o-mini" :=
  ⟨rfl, rfl, rfl, rfl, rfl⟩

/-- Inversion of the retry router: the edge back to the synthesizer is taken
only when the grade is not `pass` and the retry counter is strictly below
the cap. -/
theorem routeAfterGradeAnswer_synthesizer {g : String} {rc maxR : Nat}
    (h : routeAfterGradeAnswer g rc maxR = "synthesizer") :
    g ≠ "pass" ∧ rc < maxR := by
  unfold routeAfterGradeAnswer at h
  split_ifs at h with h1 h2
  · exact absurd h (by decide)
  · exact absurd h (by decide)
  · exact ⟨h1, by omega⟩

/-- The synthesizer ↔ grader loop performs at most `fuel` synthesizer
executions. -/
theorem synthGradeLoop_count_le (so : Nat → Except String SynthOut)
    (go : Nat → Except String GradeAnswerOut) :
    ∀ (fuel : Nat) (st : ReviewState), (synthGradeLoop so go fuel st).2 ≤ fuel := by
  intro fuel
  induction fuel with
  | zero => intro st; simp [synthGradeLoop]
  | succ n ih =>
    intro st
    simp only [synthGradeLoop]
    split
    · exact Nat.succ_le_succ (ih _)
    · exact Nat.succ_le_succ (Nat.zero_le n)

/-- Claim C3: the feedback loop re-enters the synthesizer only when the
answer grade is not `pass` and `retry_count < max_retries`; hence
`retry_count ≤ max_retries` whenever the retry edge is taken, and the loop
entered with fuel `max_retries + 1` (as the graph executor does) runs the
Synthesizer at most `max_retries + 1` times. -/
theorem claim_C3_retry_bound (g : String) (rc maxR : Nat)
    (so : Nat → Except String SynthOut) (go : Nat → Except String GradeAnswerOut)
    (st : ReviewState)
    (h : routeAfterGradeAnswer g rc maxR = "synthesizer") :
    g ≠ "pass" ∧ rc < maxR ∧ rc ≤ maxR
    ∧ (synthGradeLoop so go (st.max_retries + 1) st).2 ≤ st.max_retries + 1 := by
  obtain ⟨h1, h2⟩ := routeAfterGradeAnswer_synthesizer h
  exact ⟨h1, h2, Nat.le_of_lt h2, synthGradeLoop_count_le so go _ st⟩

/-- Witness for claim C3: a failed grade with counter 0 and cap 2 takes the
retry edge, and a concrete loop execution stays within the bound. -/
theorem claim_C3_retry_bound_witness :
    ("fail" : String) ≠ "pass" ∧ 0 < 2 ∧ 0 ≤ 2
    ∧ (synthGradeLoop (fun _ => Except.ok SynthOut.nonDict)
        (fun _ => Except.ok GradeAnswerOut.nonDict)
        ((initialState "문구" "" "").max_retries + 1)
        (initialState "문구" "" "")).2
      ≤ (initialState "문구" "" "").max_retries + 1 :=
  claim_C3_retry_bound "fail" 0 2 (fun _ => Except.ok SynthOut.nonDict)
    (fun _ => Except.ok GradeAnswerOut.nonDict) (initialState "문구" "" "") (by decide)

/-- Any property of judgment strings that holds for the default `주의` and
for every judgment the synthesis oracle can put in a dict reply holds for
the judgment the Synthesizer emits. -/
theorem synthesizerNode_judgment (oracle : Except String SynthOut)
    (rts : Option (List String)) (cc lc rcc gc : List Chunk)
    (P : String → Prop) (hP : P "주의")
    (hd : ∀ d j, oracle = Except.ok (SynthOut.dict d) → d.judgment = some j → P j) :
    P (synthesizerNode oracle rts cc lc rcc gc).1.judgment := by
  cases oracle with
  | error e => exact hP
  | ok v =>
    cases v with
    | nonDict => exact hP
    | dict d =>
      cases hj : d.judgment with
      | none =>
        have h : (synthesizerNode (Except.ok (SynthOut.dict d)) rts cc lc rcc gc).1.judgment
            = "주의" := by
          simp [synthesizerNode, hj]
        rw [h]; exact hP
      | some j =>
        have h : (synthesizerNode (Except.ok (SynthOut.dict d)) rts cc lc rcc gc).1.judgment
            = j := by
          simp [synthesizerNode, hj]
        rw [h]; exact hd d j rfl hj

/-- Along the synthesizer ↔ grader loop (entered with enough fuel), the
final state's `result` is always set, and its judgment is either the
default `주의` or a judgment string taken from some dict reply of the
synthesis oracle. -/
theorem synthGradeLoop_result (so : Nat → Except String SynthOut)
    (go : Nat → Except String GradeAnswerOut)
    (P : String → Prop) (hP : P "주의")
    (hd : ∀ k d j, so k = Except.ok (SynthOut.dict d) → d.judgment = some j → P j) :
    ∀ (fuel : Nat) (st : ReviewState),
      st.retry_count ≤ st.max_retries → st.max_retries < fuel + st.retry_count →
      ∃ r, (synthGradeLoop so go fuel st).1.result = some r ∧ P r.judgment := by
  intro fuel
  induction fuel with
  | zero => intro st h1 h2; omega
  | succ n ih =>
    intro st h1 h2
    simp only [synthGradeLoop]
    split
    next hroute =>
      obtain ⟨-, hlt⟩ := routeAfterGradeAnswer_synthesizer hroute
      refine ih _ ?_ ?_
      · show st.retry_count + 1 ≤ st.max_retries
        omega
      · show st.max_retries < n + (st.retry_count + 1)
        omega
    next hroute =>
      refine ⟨_, rfl, ?_⟩
      exact synthesizerNode_judgment (so st.retry_count) st.plan.risk_types
        st.case_context st.law_chunks st.regulation_chunks st.guideline_chunks
        P hP (fun d j hs hj => hd st.retry_count d j hs hj)

/-- Lifting of `synthGradeLoop_result` to a full graph execution: the final
state's `result` is set, and its judgment is `주의` or a judgment taken from
a dict reply of the synthesis oracle. -/
theorem graphInvoke_result (o : RunOracles) (st0 : ReviewState)
    (P : String → Prop) (hP : P "주의")
    (hd : ∀ k d j, o.synth k = Except.ok (SynthOut.dict d) → d.judgment = some j → P j) :
    ∃ r, (graphInvoke o st0).result = some r ∧ P r.judgment := by
  simp only [graphInvoke]
  apply synthGradeLoop_result o.synth o.gradeAnswer P hP hd
  · show (0 : Nat) ≤ 2
    omega
  · show (2 : Nat) < 2 + 1 + 0
    omega

/-- Claim C1 (amended): `ReviewChain.run` never leaves the judgment unset —
on every path it is either the default `주의` (all failure and
malformed-output paths) or the verbatim judgment string of a dict reply of
the synthesis completion call, which is passed through unvalidated.  Hence
the judgment lies in the enum {위반소지, 주의, OK} exactly when every dict
reply's judgment field does. -/
theorem claim_C1_judgment_enum (o : RunOracles) (item category btype : String)
    (h : ∀ k d j, o.synth k = Except.ok (SynthOut.dict d) → d.judgment = some j →
      j ∈ (["위반소지", "주의", "OK"] : List String)) :
    (reviewChainRun o item category btype).judgment
      ∈ (["위반소지", "주의", "OK"] : List String) := by
  simp only [reviewChainRun]
  cases hgf : o.graphFailure with
  | some e =>
    show ("주의" : String) ∈ (["위반소지", "주의", "OK"] : List String)
    decide
  | none =>
    obtain ⟨r, hr, hP⟩ := graphInvoke_result o (initialState item category btype)
      (fun j => j ∈ (["위반소지", "주의", "OK"] : List String)) (by decide) h
    rw [hr]
    exact hP

/-- Witness for claim C1 (amended): with a synthesis oracle that always
returns a non-dict reply, the hypothesis holds vacuously and the judgment
lands in the enum. -/
theorem claim_C1_judgment_enum_witness :
    (reviewChainRun
      { planner := Except.ok none
      , caseSearch := fun _ _ => Except.ok []
      , caseGrade := fun _ => Except.ok []
      , caseRewrite := fun _ => Except.ok none
      , policySearch := fun _ _ => Except.ok {}
      , policyGrade := fun _ _ => Except.ok []
      , policyRewrite := fun _ => Except.ok none
      , synth := fun _ => Except.ok SynthOut.nonDict
      , gradeAnswer := fun _ => Except.ok GradeAnswerOut.nonDict
      , graphFailure := none } "문구 샘플" "" "").judgment
      ∈ (["위반소지", "주의", "OK"] : List String) :=
  claim_C1_judgment_enum _ "문구 샘플" "" ""
    (fun _ d _ hs _ => absurd (Except.ok.inj hs) (fun hne => by cases hne))

/-- The oracle bundle of the counterexample to claim C1 as stated: every
external call succeeds, but the synthesis reply is a well-formed JSON object
whose judgment field holds the out-of-enum string `위반`. -/
def cexOraclesC1 : RunOracles :=
  { planner := Except.ok none
  , caseSearch := fun _ _ => Except.ok []
  , caseGrade := fun _ => Except.ok []
  , caseRewrite := fun _ => Except.ok none
  , policySearch := fun _ _ => Except.ok {}
  , policyGrade := fun _ _ => Except.ok []
  , policyRewrite := fun _ => Except.ok none
  , synth := fun _ => Except.ok (SynthOut.dict { judgment := some "위반" })
  , gradeAnswer := fun _ => Except.ok (GradeAnswerOut.dict (some "pass"))
  , graphFailure := none }

/-- Counterexample for claim C1 as stated: the synthesizer performs no enum
validation — a parsed object reply with judgment `위반` flows through
`default_result.update(result)` into the value `run` returns, which is then
outside {위반소지, 주의, OK}. -/
theorem claim_C1_counterexample :
    (reviewChainRun cexOraclesC1 "다신 오지 않는 최저가" "" "").judgment = "위반"
    ∧ "위반" ∉ (["위반소지", "주의", "OK"] : List String) := by
  constructor
  · rfl
  · decide

/-- Number of `case_rewrite` records in a trace log — one per query rewrite
the Case Agent performed. -/
def countCaseRewrites (logs : List LogEntry) : Nat :=
  logs.countP (fun l => match l with
    | LogEntry.case_rewrite _ _ => true
    | _ => false)

/-- `countCaseRewrites` distributes over concatenation. -/
theorem countCaseRewrites_append (a b : List LogEntry) :
    countCaseRewrites (a ++ b) = countCaseRewrites a + countCaseRewrites b :=
  List.countP_append _ _ _

/-- A retrieval record contributes nothing to the rewrite count. -/
theorem countCaseRewrites_retrieve (q : String) (t r : Nat) :
    countCaseRewrites [LogEntry.case_retrieve q t r] = 0 := rfl

/-- A grading record contributes nothing to the rewrite count. -/
theorem countCaseRewrites_grade (o : Except String (List GradeEntry))
    (chunks : List Chunk) :
    countCaseRewrites [(caseAgentGrade o chunks).2] = 0 := rfl

/-- A rewrite step contributes exactly one `case_rewrite` record. -/
theorem countCaseRewrites_rewrite (o : Except String (Option String)) (q : String) :
    countCaseRewrites [(caseAgentRewrite o q).2] = 1 := rfl

/-- The Case Agent loop performs at most `maxRetries - retry` further query
rewrites from any loop entry. -/
theorem caseAgentRunAux_rewrites (sc : Nat → String → Except String (List Chunk))
    (gr : Nat → Except String (List GradeEntry))
    (rw : Nat → Except String (Option String)) (maxRetries : Nat) :
    ∀ (fuel retry : Nat) (q : String) (logs : List LogEntry),
      countCaseRewrites (caseAgentRunAux sc gr rw maxRetries fuel retry q logs).tool_logs
        ≤ countCaseRewrites logs + (maxRetries - retry) := by
  intro fuel
  induction fuel with
  | zero =>
    intro retry q logs
    simp [caseAgentRunAux]
  | succ n ih =>
    intro retry q logs
    simp only [caseAgentRunAux]
    split
    · split
      · simp [countCaseRewrites, List.countP_append, List.countP_cons]
      · next hle =>
        refine le_trans (ih _ _ _) ?_
        simp [countCaseRewrites, List.countP_append, List.countP_cons,
          caseAgentRewrite]
        omega
    · split
      · simp [countCaseRewrites, List.countP_append, List.countP_cons,
          caseAgentGrade]
      · next hle =>
        refine le_trans (ih _ _ _) ?_
        simp [countCaseRewrites, List.countP_append, List.countP_cons,
          caseAgentGrade, caseAgentRewrite]
        omega

/-- If every retrieval returns zero results or raises, the Case Agent loop
terminates with an empty evidence list (it never raises) from any entry
point. -/
theorem caseAgentRunAux_empty (sc : Nat → String → Except String (List Chunk))
    (gr : Nat → Except String (List GradeEntry))
    (rw : Nat → Except String (Option String)) (maxRetries : Nat)
    (h : ∀ k q2 l, sc k q2 = Except.ok l → l = []) :
    ∀ (fuel retry : Nat) (q : String) (logs : List LogEntry),
      (caseAgentRunAux sc gr rw maxRetries fuel retry q logs).case_chunks = [] := by
  intro fuel
  induction fuel with
  | zero => intro retry q logs; rfl
  | succ n ih =>
    intro retry q logs
    have hc : (match sc retry q with | .ok l => l | .error _ => []) = [] := by
      cases hsc : sc retry q with
      | ok l => exact h _ _ _ hsc
      | error e => rfl
    simp only [caseAgentRunAux, hc, List.isEmpty_nil, if_true]
    split
    · rfl
    · exact ih _ _ _

/-- Claim C4: the Case Agent's retrieve→grade→rewrite loop performs at most
3 query rewrites (its own hard cap, independent of the workflow's
`max_retries` field, which `case_agent_node` never passes), and if every
retrieval returns zero results until retries are exhausted it terminates
with an empty case-evidence list instead of raising. -/
theorem claim_C4_case_retry_cap (sc : Nat → String → Except String (List Chunk))
    (gr : Nat → Except String (List GradeEntry))
    (rw : Nat → Except String (Option String)) (q : String)
    (st : ReviewState) (n : Nat) :
    countCaseRewrites (caseAgentRun sc gr rw q 3).tool_logs ≤ 3
    ∧ ((∀ k q2 l, sc k q2 = Except.ok l → l = []) →
        (caseAgentRun sc gr rw q 3).case_chunks = [])
    ∧ caseAgentNode sc gr rw { st with max_retries := n } = caseAgentNode sc gr rw st := by
  refine ⟨?_, ?_, rfl⟩
  · have h := caseAgentRunAux_rewrites sc gr rw 3 4 0 q []
    simpa [caseAgentRun, countCaseRewrites] using h
  · intro h
    exact caseAgentRunAux_empty sc gr rw 3 h 4 0 q []

/-- Witness for claim C4 at a store that always returns zero results: the
rewrite count stays within 3 and the returned evidence is empty. -/
theorem claim_C4_case_retry_cap_witness :
    countCaseRewrites (caseAgentRun (fun _ _ => Except.ok []) (fun _ => Except.ok [])
      (fun _ => Except.ok none) "한정 판매" 3).tool_logs ≤ 3
    ∧ (caseAgentRun (fun _ _ => Except.ok []) (fun _ => Except.ok [])
      (fun _ => Except.ok none) "한정 판매" 3).case_chunks = [] := by
  have h := claim_C4_case_retry_cap (fun _ _ => Except.ok []) (fun _ => Except.ok [])
    (fun _ => Except.ok none) "한정 판매" (initialState "x" "" "") 0
  exact ⟨h.1, h.2.1 (fun _ _ _ hl => (Except.ok.inj hl).symm)⟩

/-- Claim C8: `case_agent_node` writes only `case_context` plus the trace
log and `policy_agent_node` writes only the three policy buckets plus the
trace log (their merged updates leave the other agent's evidence fields of
the state untouched); moreover each node's output depends only on the state
fields it reads (`item_text` and `plan`, plus `max_retries` for the policy
node) — in particular on neither agent's evidence fields — for every oracle
bundle, including a failing evidence store. -/
theorem claim_C8_disjoint_ownership
    (sc : Nat → String → Except String (List Chunk))
    (gr : Nat → Except String (List GradeEntry))
    (rw : Nat → Except String (Option String))
    (ps : Nat → String → Except String PolicyRaw)
    (pg : Nat → List String → Except String (List GradeEntry))
    (prw : Nat → Except String (Option String))
    (st st1 st2 : ReviewState) :
    (applyCase st (caseAgentNode sc gr rw st)).law_chunks = st.law_chunks
    ∧ (applyCase st (caseAgentNode sc gr rw st)).regulation_chunks = st.regulation_chunks
    ∧ (applyCase st (caseAgentNode sc gr rw st)).guideline_chunks = st.guideline_chunks
    ∧ (applyPolicy st (policyAgentNode ps pg prw st)).case_context = st.case_context
    ∧ (st1.item_text = st2.item_text → st1.plan = st2.plan →
        caseAgentNode sc gr rw st1 = caseAgentNode sc gr rw st2)
    ∧ (st1.item_text = st2.item_text → st1.plan = st2.plan →
        st1.max_retries = st2.max_retries →
        policyAgentNode ps pg prw st1 = policyAgentNode ps pg prw st2) := by
  refine ⟨rfl, rfl, rfl, rfl, ?_, ?_⟩
  · intro h1 h2
    simp [caseAgentNode, h1, h2]
  · intro h1 h2 h3
    simp [policyAgentNode, h1, h2, h3]

/-- State with empty evidence used to witness claim C8. -/
def frameStateA : ReviewState := initialState "최저가 보장" "" ""

/-- State identical to `frameStateA` except for the other agent's evidence
fields, used to witness claim C8. -/
def frameStateB : ReviewState :=
  { initialState "최저가 보장" "" "" with law_chunks := [{}], case_context := [{}] }

/-- Witness for claim C8: with an evidence store that always fails, each
agent node produces the same output on two states differing only in the
other agent's evidence fields. -/
theorem claim_C8_disjoint_ownership_witness :
    caseAgentNode (fun _ _ => Except.error "down") (fun _ => Except.error "down")
        (fun _ => Except.error "down") frameStateA
      = caseAgentNode (fun _ _ => Except.error "down") (fun _ => Except.error "down")
        (fun _ => Except.error "down") frameStateB
    ∧ policyAgentNode (fun _ _ => Except.error "down") (fun _ _ => Except.error "down")
        (fun _ => Except.error "down") frameStateA
      = policyAgentNode (fun _ _ => Except.error "down") (fun _ _ => Except.error "down")
        (fun _ => Except.error "down") frameStateB := by
  have h := claim_C8_disjoint_ownership (fun _ _ => Except.error "down")
    (fun _ => Except.error "down") (fun _ => Except.error "down")
    (fun _ _ => Except.error "down") (fun _ _ => Except.error "down")
    (fun _ => Except.error "down") frameStateA frameStateA frameStateB
  exact ⟨h.2.2.2.2.1 rfl rfl, h.2.2.2.2.2 rfl rfl rfl⟩

/-- The non-empty identities of a reference list, in order.  Empty
identities are excluded because the source's `existing_ids` set only admits
truthy ids. -/
def nonemptyIds (rs : List Ref) : List String :=
  (rs.map Ref.chroma_id).filter (fun s => ¬ s = "")

/-- The reconciliation loop only ever appends: accumulated references
survive. -/
theorem reconcileRefsGo_mem_acc (r : Ref) :
    ∀ (rest : List Ref) (acc : List Ref) (ids : List String),
      r ∈ acc → r ∈ reconcileRefsGo acc ids rest := by
  intro rest
  induction rest with
  | nil => intro acc ids h; exact h
  | cons x xs ih =>
    intro acc ids h
    simp only [reconcileRefsGo]
    split
    · exact ih _ _ h
    · exact ih _ _ (List.mem_append_left _ h)

/-- If every accumulated id is carried by some accumulated reference, then
after the loop every walked reference's identity is carried by some
reference of the result. -/
theorem reconcileRefsGo_coverage :
    ∀ (rest : List Ref) (acc : List Ref) (ids : List String),
      (∀ i ∈ ids, ∃ r ∈ acc, r.chroma_id = i) →
      ∀ ref ∈ rest, ∃ r ∈ reconcileRefsGo acc ids rest, r.chroma_id = ref.chroma_id := by
  intro rest
  induction rest with
  | nil => intro acc ids _ ref h; exact absurd h (List.not_mem_nil _)
  | cons x xs ih =>
    intro acc ids hids ref href
    simp only [reconcileRefsGo]
    by_cases hx : x.chroma_id ∈ ids
    · rw [if_pos hx]
      rcases List.mem_cons.mp href with rfl | hxs
      · obtain ⟨r, hr, hre⟩ := hids ref.chroma_id hx
        exact ⟨r, reconcileRefsGo_mem_acc r xs acc ids hr, hre⟩
      · exact ih acc ids hids ref hxs
    · rw [if_neg hx]
      have hids2 : ∀ i ∈ ids ++ [x.chroma_id], ∃ r ∈ acc ++ [x], r.chroma_id = i := by
        intro i hi
        rcases List.mem_append.mp hi with hi | hi
        · obtain ⟨r, hr, hre⟩ := hids i hi
          exact ⟨r, List.mem_append_left _ hr, hre⟩
        · rcases List.mem_singleton.mp hi with rfl
          exact ⟨x, List.mem_append_right _ (List.mem_singleton.mpr rfl), rfl⟩
      rcases List.mem_cons.mp href with rfl | hxs
      · refine ⟨ref, ?_, rfl⟩
        exact reconcileRefsGo_mem_acc ref xs _ _ (List.mem_append_right _ (by simp))
      · exact ih _ _ hids2 ref hxs

/-- The loop preserves uniqueness of non-empty identities, given that every
non-empty accumulated identity is recorded in the id set. -/
theorem reconcileRefsGo_nodup :
    ∀ (rest : List Ref) (acc : List Ref) (ids : List String),
      (nonemptyIds acc).Nodup →
      (∀ r ∈ acc, ¬ r.chroma_id = "" → r.chroma_id ∈ ids) →
      (nonemptyIds (reconcileRefsGo acc ids rest)).Nodup := by
  intro rest
  induction rest with
  | nil => intro acc ids h1 _; exact h1
  | cons x xs ih =>
    intro acc ids h1 h2
    simp only [reconcileRefsGo]
    by_cases hx : x.chroma_id ∈ ids
    · rw [if_pos hx]
      exact ih acc ids h1 h2
    · rw [if_neg hx]
      refine ih _ _ ?_ ?_
      · by_cases hxe : x.chroma_id = ""
        · have he : nonemptyIds (acc ++ [x]) = nonemptyIds acc := by
            simp [nonemptyIds, List.filter_append, hxe]
          rw [he]; exact h1
        · have he : nonemptyIds (acc ++ [x]) = nonemptyIds acc ++ [x.chroma_id] := by
            simp [nonemptyIds, List.filter_append, hxe]
          rw [he]
          refine List.nodup_append.mpr ⟨h1, List.nodup_singleton _, ?_⟩
          intro a ha hb
          rcases List.mem_singleton.mp hb with rfl
          obtain ⟨r, hri, hre⟩ : ∃ r ∈ acc, r.chroma_id = x.chroma_id := by
            simp only [nonemptyIds, List.mem_filter, List.mem_map] at ha
            obtain ⟨⟨r, hr, hre⟩, -⟩ := ha
            exact ⟨r, hr, hre⟩
          exact hx (hre ▸ h2 r hri (by rw [hre]; exact hxe))
      · intro r hr hne
        rcases List.mem_append.mp hr with hr | hr
        · exact List.mem_append_left _ (h2 r hr hne)
        · rcases List.mem_singleton.mp hr with rfl
          exact List.mem_append_right _ (List.mem_singleton.mpr rfl)

/-- Claim C7 (amended): after synthesis, every retrieved evidence item's
identity appears in the final reference list (items whose `chroma_id` is
not already cited are appended), and the reconciliation introduces no
duplicate non-empty identity: if the model-supplied reference list has no
duplicate non-empty identities, neither has the final list.  (Duplicates
already present in the model's own list are preserved, so the final list is
duplicate-free only under that proviso.)  The third conjunct ties the
reconciliation to `synthesizer_node`'s output for a dict reply. -/
theorem claim_C7_reference_union (modelRefs retrieved : List Ref)
    (rts : Option (List String)) (cc lc rcc gc : List Chunk) (d : SynthDict) :
    (∀ ref ∈ retrieved, ∃ r ∈ reconcileRefs modelRefs retrieved,
        r.chroma_id = ref.chroma_id)
    ∧ ((nonemptyIds modelRefs).Nodup →
        (nonemptyIds (reconcileRefs modelRefs retrieved)).Nodup)
    ∧ (synthesizerNode (Except.ok (SynthOut.dict d)) rts cc lc rcc gc).1.references
        = reconcileRefs (d.references.getD []) (contextToRefs cc lc rcc gc) := by
  refine ⟨?_, ?_, rfl⟩
  · simp only [reconcileRefs]
    apply reconcileRefsGo_coverage
    intro i hi
    simp only [List.mem_map, List.mem_filter, decide_eq_true_eq] at hi
    obtain ⟨r, ⟨hr, -⟩, rfl⟩ := hi
    exact ⟨r, hr, rfl⟩
  · intro h
    simp only [reconcileRefs]
    apply reconcileRefsGo_nodup
    · exact h
    · intro r hr hne
      simp only [List.mem_map, List.mem_filter, decide_eq_true_eq]
      exact ⟨r, ⟨hr, hne⟩, rfl⟩

/-- A reference with a fixed identity, used to exhibit the duplicate the
reconciliation leaves in place. -/
def dupRef : Ref := { chroma_id := "chunk-a" }

/-- Counterexample for claim C7 as stated: when the model's own reference
list already cites the same identity twice, the final reference list keeps
both entries — it does contain two entries with identical identity. -/
theorem claim_C7_counterexample :
    (synthesizerNode (Except.ok (SynthOut.dict { references := some [dupRef, dupRef] }))
      none [] [] [] []).1.references = [dupRef, dupRef]
    ∧ ¬ ((synthesizerNode (Except.ok (SynthOut.dict { references := some [dupRef, dupRef] }))
      none [] [] [] []).1.references.map Ref.chroma_id).Nodup := by
  refine ⟨rfl, ?_⟩
  decide

/-- Model-supplied reference used to witness claim C7. -/
def witRefC7 : Ref := { chroma_id := "ref-1" }

/-- Retrieved evidence chunk used to witness claim C7. -/
def witChunkC7 : Chunk := { chroma_id := some "chunk-2" }

/-- Witness for claim C7 at one cited reference and one uncited retrieved
chunk: the retrieved identity appears in the final list and the final list
has pairwise distinct non-empty identities. -/
theorem claim_C7_reference_union_witness :
    (∃ r ∈ reconcileRefs [witRefC7] (contextToRefs [witChunkC7] [] [] []),
        r.chroma_id = (chunkToRef "사례" witChunkC7).chroma_id)
    ∧ (nonemptyIds (reconcileRefs [witRefC7] (contextToRefs [witChunkC7] [] [] []))).Nodup := by
  have h := claim_C7_reference_union [witRefC7] (contextToRefs [witChunkC7] [] [] [])
    none [] [] [] [] {}
  refine ⟨h.1 (chunkToRef "사례" witChunkC7) ?_, h.2.1 ?_⟩
  · simp [contextToRefs]
  · simp [nonemptyIds, witRefC7]

/-- Reply of `chroma_store.query` after the `raw.get(..., [[]])[0] or []`
flattening: the row lists of the single query.  `documents` entries may be
null (`none`). -/
structure QueryRaw where
  ids : List String := []
  documents : List (Option String) := []
  metadatas : List Metadata := []
  distances : List Rat := []
deriving DecidableEq, Repr

/-- `_parse_query_result(raw)` (case_tools.py lines 29-48): one chunk per
id; positions missing in the other rows fall back to `""`, `{}` and
distance `0.0`.  The float rounding `round(1.0 - distance, 4)` is
abstracted to exact `Rat` arithmetic (no claim reads score values). -/
def parseQueryResult (raw : QueryRaw) : List Chunk :=
  (List.range raw.ids.length).map fun idx =>
    { content := (raw.documents.get? idx).getD (some "")
    , metadata := (raw.metadatas.get? idx).getD {}
    , chroma_id := some ((raw.ids.get? idx).getD "")
    , relevance_score := 1 - (raw.distances.get? idx).getD 0 }

/-- `search_cases(query)` (case_tools.py lines 55-73): one store query
against the `cases` collection with `n_results=5`, parsed into chunks.  The
embedding call is folded into the store function. -/
def searchCases (store : String → String → Nat → QueryRaw) (query : String) :
    List Chunk :=
  parseQueryResult (store "cases" query 5)

/-- The retrieval oracle `case_agent_node` effectively uses: every retrieval
goes through `search_cases` (which only raises if the store or embedder
does; this oracle models the non-raising store). -/
def caseSearchOracle (store : String → String → Nat → QueryRaw) :
    Nat → String → Except String (List Chunk) :=
  fun _ qq => Except.ok (searchCases store qq)

/-- Parsing yields exactly one chunk per returned id. -/
theorem parseQueryResult_length (raw : QueryRaw) :
    (parseQueryResult raw).length = raw.ids.length := by
  simp [parseQueryResult]

/-- The graded-relevant subset is a sublist of the graded chunks. -/
theorem gradeFilter_sublist (grades : List GradeEntry) (chunks : List Chunk) :
    (gradeFilter grades chunks).Sublist chunks := by
  have h1 : (chunks.enum.filter fun p => (p.1 : Int) ∈ relevantIndices grades).Sublist
      chunks.enum := List.filter_sublist _
  have h2 := h1.map Prod.snd
  rwa [List.enum_map_snd] at h2

/-- Whatever the grading oracle does, `CaseAgent._grade` returns a sublist
of its input chunks. -/
theorem caseAgentGrade_sublist (o : Except String (List GradeEntry))
    (chunks : List Chunk) :
    ((caseAgentGrade o chunks).1).Sublist chunks := by
  cases o with
  | ok g => exact gradeFilter_sublist g chunks
  | error e => exact List.Sublist.refl _

/-- The Case Agent's returned evidence is empty or a sublist of the chunk
list delivered by one successful retrieval. -/
theorem caseAgentRunAux_from_retrieval (sc : Nat → String → Except String (List Chunk))
    (gr : Nat → Except String (List GradeEntry))
    (rw : Nat → Except String (Option String)) (maxRetries : Nat) :
    ∀ (fuel retry : Nat) (q : String) (logs : List LogEntry),
      (caseAgentRunAux sc gr rw maxRetries fuel retry q logs).case_chunks = []
      ∨ ∃ k qq l, sc k qq = Except.ok l
          ∧ ((caseAgentRunAux sc gr rw maxRetries fuel retry q logs).case_chunks).Sublist l := by
  intro fuel
  induction fuel with
  | zero => intro retry q logs; exact Or.inl rfl
  | succ n ih =>
    intro retry q logs
    cases hsc : sc retry q with
    | error e =>
      simp only [caseAgentRunAux, hsc, List.isEmpty_nil, if_true]
      split
      · exact Or.inl rfl
      · exact ih _ _ _
    | ok l =>
      simp only [caseAgentRunAux, hsc]
      split
      · split
        · exact Or.inl rfl
        · exact ih _ _ _
      · split
        · exact Or.inr ⟨retry, q, l, hsc, caseAgentGrade_sublist (gr retry) l⟩
        · exact ih _ _ _

/-- If every successful retrieval returns at most `N` chunks, the Case
Agent's returned evidence has at most `N` chunks. -/
theorem caseAgentRun_length_le (sc : Nat → String → Except String (List Chunk))
    (gr : Nat → Except String (List GradeEntry))
    (rw : Nat → Except String (Option String)) (q : String) (maxRetries N : Nat)
    (h : ∀ k qq l, sc k qq = Except.ok l → l.length ≤ N) :
    (caseAgentRun sc gr rw q maxRetries).case_chunks.length ≤ N := by
  rcases caseAgentRunAux_from_retrieval sc gr rw maxRetries (maxRetries + 1) 0 q []
    with he | ⟨k, qq, l, hsc, hsub⟩
  · simp only [caseAgentRun, he, List.length_nil]
    omega
  · exact le_trans (List.Sublist.length_le hsub) (h k qq l hsc)

/-- Claim C10: a single case retrieval returns at most 5 evidence items
(`n_results=5`, assuming the store honours its row cap), and the Case
Agent's returned `case_chunks` list is empty or a sublist of the items of
one retrieval; hence the case evidence handed to the Synthesizer has length
at most 5. -/
theorem claim_C10_case_evidence_cap (store : String → String → Nat → QueryRaw)
    (hstore : ∀ key qq n, ((store key qq n).ids).length ≤ n)
    (gr : Nat → Except String (List GradeEntry))
    (rw : Nat → Except String (Option String)) (q : String) :
    (∀ qq, (searchCases store qq).length ≤ 5)
    ∧ ((caseAgentRun (caseSearchOracle store) gr rw q 3).case_chunks = []
        ∨ ∃ qq, ((caseAgentRun (caseSearchOracle store) gr rw q 3).case_chunks).Sublist
            (searchCases store qq))
    ∧ (caseAgentRun (caseSearchOracle store) gr rw q 3).case_chunks.length ≤ 5 := by
  have hlen : ∀ qq, (searchCases store qq).length ≤ 5 := by
    intro qq
    calc (searchCases store qq).length = ((store "cases" qq 5).ids).length :=
          parseQueryResult_length _
      _ ≤ 5 := hstore _ _ _
  refine ⟨hlen, ?_, ?_⟩
  · rcases caseAgentRunAux_from_retrieval (caseSearchOracle store) gr rw 3 4 0 q []
      with he | ⟨k, qq, l, hsc, hsub⟩
    · exact Or.inl he
    · refine Or.inr ⟨qq, ?_⟩
      have hl : searchCases store qq = l := Except.ok.inj hsc
      rw [← hl] at hsub
      exact hsub
  · apply caseAgentRun_length_le
    intro k qq l hl
    rw [← Except.ok.inj hl]
    exact hlen qq

/-- Witness for claim C10 at a store that returns no rows: the Case Agent's
evidence stays within the cap of 5. -/
theorem claim_C10_case_evidence_cap_witness :
    (caseAgentRun (caseSearchOracle (fun _ _ _ => {})) (fun _ => Except.ok [])
      (fun _ => Except.ok none) "긴급 할인" 3).case_chunks.length ≤ 5 :=
  (claim_C10_case_evidence_cap (fun _ _ _ => {}) (fun _ _ n => Nat.zero_le n)
    (fun _ => Except.ok []) (fun _ => Except.ok none) "긴급 할인").2.2
